import Mathlib

/-!
Verification development for the `salus` Home Assistant custom component
(`custom_components/salus`): a shallow embedding of `const.py`,
`config_flow.py`, `coordinator.py` and `climate.py`, followed by theorems
about the embedded operations.

The external pyit600 gateway library and the Home Assistant host framework
are modelled as oracles: a `GatewayBehavior` record fixes what each gateway
call would do during one operation, and every embedded coordinator or
entity method returns its updated coordinator state, the list of external
calls it performed, and its outcome (`Except.ok` for a normal return,
`Except.error` for a raised exception).
-/

namespace Salus

/-! ## const.py -/

def DOMAIN : String := "salus"

def DEFAULT_EUID : String := "0000000000000000"

def DEFAULT_SCAN_INTERVAL : Nat := 30

/-! ## config_flow.py: the EUID validator -/

/-- A character of the regex class `[0-9a-fA-F]`. -/
def isHexDigit (c : Char) : Bool :=
  ('0' ≤ c && c ≤ '9') || ('a' ≤ c && c ≤ 'f') || ('A' ≤ c && c ≤ 'F')

/-- `validate_euid` from `config_flow.py`: the truthiness of
`re.match(EUID_REGEX, euid)` with `EUID_REGEX = ^[0-9a-fA-F]{16}$` compiled
by Python's `re`. `re.match` anchors at the start, and in Python (without
`re.MULTILINE`) the `$` anchor matches at the end of the string or just
before a newline that is the last character of the string. So the pattern
matches the strings of exactly sixteen hex digits, and also those same
strings with one trailing newline appended. -/
def validate_euid (euid : String) : Bool :=
  (euid.data.length == 16 && euid.data.all isHexDigit) ||
  (euid.data.length == 17 && (euid.data.take 16).all isHexDigit
    && euid.data.getLast? == some '\n')

/-! ## climate.py: translation tables -/

/-- The Home Assistant `HVACMode` values referenced by `climate.py`
(`HEAT`, `OFF`, `AUTO` appear in the tables; the others exist in the host
enum and are unmapped). -/
inductive HVACMode
  | heat
  | off
  | auto
  | cool
  | dry
  | fan_only
  | heat_cool
  deriving DecidableEq

/-- The Home Assistant `HVACAction` values referenced by `climate.py`. -/
inductive HVACAction
  | heating
  | idle
  | off
  | cooling
  | preheating
  deriving DecidableEq

/-- `HVAC_MODE_MAP` (climate.py 25-29): dict from pyit600 raw mode strings
to Home Assistant modes; `none` models a missing key. -/
def HVAC_MODE_MAP : String → Option HVACMode
  | "heat" => some HVACMode.heat
  | "off" => some HVACMode.off
  | "auto" => some HVACMode.auto
  | _ => none

/-- `HVAC_MODE_REVERSE_MAP` (climate.py 31), the dict comprehension
inverting `HVAC_MODE_MAP` key by key; since the three values are distinct
the result is exactly the three inverted pairs. -/
def HVAC_MODE_REVERSE_MAP : HVACMode → Option String
  | HVACMode.heat => some "heat"
  | HVACMode.off => some "off"
  | HVACMode.auto => some "auto"
  | _ => none

/-- `HVAC_ACTION_MAP` (climate.py 34-38). -/
def HVAC_ACTION_MAP : String → Option HVACAction
  | "heating" => some HVACAction.heating
  | "idle" => some HVACAction.idle
  | "off" => some HVACAction.off
  | _ => none

/-! ## Data model: device records and snapshots -/

/-- One climate device record as returned by
`IT600Gateway.get_climate_devices()`. Fields that `climate.py` probes with
`hasattr` before reading are modelled as `Option`: `none` means the
attribute is absent on the record. -/
structure DeviceState where
  name : String
  available : Bool
  current_temperature : Option Rat
  target_temperature : Option Rat
  hvac_mode : Option String
  hvac_action : Option String
  preset_mode : Option String
  deriving DecidableEq

/-- The `"climate"` table of the coordinator's data dict: device id →
device record (Python dict, embedded as an association list with unique
keys). -/
abbrev Snapshot := List (String × DeviceState)

/-! ## coordinator.py: state, oracles and operations -/

/-- The `IT600Gateway(host=..., euid=...)` object held in
`self._gateway`. -/
structure GatewayConn where
  host : String
  euid : String
  deriving DecidableEq

/-- The mutable attributes of `SalusDataUpdateCoordinator`: `_host`,
`_euid`, `_gateway`, and the `data` slot the host framework's
`DataUpdateCoordinator` stores the last successful `_async_update_data`
result in (`none` until a first successful refresh). -/
structure CoordState where
  host : String
  euid : String
  gateway : Option GatewayConn
  data : Option Snapshot
  deriving DecidableEq

/-- `SalusDataUpdateCoordinator.__init__` (coordinator.py 24-34): no
gateway object and no data yet. -/
def initState (host euid : String) : CoordState :=
  { host := host, euid := euid, gateway := none, data := none }

/-- Exceptions raised by the external pyit600 library:
`IT600AuthenticationError`, `IT600ConnectionError`, or any other exception
(including `asyncio.TimeoutError` from the 30 s `async_timeout` guard). -/
inductive GatewayError
  | authError
  | connError (msg : String)
  | otherError (msg : String)
  deriving DecidableEq

/-- `str(err)` of a pyit600 exception, used when the coordinator wraps it
into an `UpdateFailed` message. -/
def GatewayError.message : GatewayError → String
  | GatewayError.authError => "authentication error"
  | GatewayError.connError m => m
  | GatewayError.otherError m => m

/-- Exceptions propagating out of a coordinator method. `updateFailed` and
`configEntryAuthFailed` are the two the code in `coordinator.py` raises;
`raw` is an uncaught exception passing through unchanged. The constructors
`deviceNotFoundError` and `unsupportedValueError` come from the error
taxonomy in the specification (§7) so that claims mentioning them can be
stated; nothing in the embedded code produces them. -/
inductive CoordError
  | updateFailed (msg : String)
  | configEntryAuthFailed (msg : String)
  | raw (e : GatewayError)
  | deviceNotFoundError (msg : String)
  | unsupportedValueError (msg : String)
  deriving DecidableEq

/-- `true` exactly when a finished command raised `DeviceNotFoundError`. -/
def raisesDeviceNotFound (r : Except CoordError Unit) : Bool :=
  match r with
  | Except.error (CoordError.deviceNotFoundError _) => true
  | _ => false

/-- External calls a coordinator/entity method can perform: pyit600
gateway calls, plus the host framework's `async_request_refresh`. -/
inductive Effect
  | connect
  | pollStatus
  | getClimateDevices
  | closeGateway
  | setTemperatureCall (deviceId : String) (temperature : Rat)
  | setModeCall (deviceId : String) (mode : String)
  | setPresetCall (deviceId : String) (preset : String)
  | requestRefresh
  deriving DecidableEq

/-- Oracle fixing what each pyit600 gateway call would do if performed
during one embedded operation. `climateDevices` is the table
`get_climate_devices()` returns after a successful `poll_status()`. -/
structure GatewayBehavior where
  connectResult : Except GatewayError Unit
  pollStatusResult : Except GatewayError Unit
  climateDevices : Snapshot
  setTemperatureResult : Except GatewayError Unit
  setModeResult : Except GatewayError Unit
  setPresetResult : Except GatewayError Unit

/-- Result of one embedded method: the coordinator state after it, the
external calls it made in order, and its outcome. -/
structure StepResult (α : Type) where
  state : CoordState
  trace : List Effect
  result : Except CoordError α

/-- `SalusDataUpdateCoordinator._async_setup` (coordinator.py 41-51).
Note the gateway object is assigned to `self._gateway` before `connect()`
is attempted, so it is set even when `connect()` raises. Only
`IT600AuthenticationError` and `IT600ConnectionError` are caught; any
other exception propagates unchanged. -/
def asyncSetup (b : GatewayBehavior) (s : CoordState) : StepResult Unit :=
  let s' : CoordState := { s with gateway := some { host := s.host, euid := s.euid } }
  match b.connectResult with
  | Except.ok _ =>
      { state := s', trace := [Effect.connect], result := Except.ok () }
  | Except.error GatewayError.authError =>
      { state := s', trace := [Effect.connect],
        result := Except.error
          (CoordError.configEntryAuthFailed "Authentication failed - check EUID") }
  | Except.error (GatewayError.connError m) =>
      { state := s', trace := [Effect.connect],
        result := Except.error
          (CoordError.updateFailed ("Failed to connect to gateway: " ++ m)) }
  | Except.error (GatewayError.otherError m) =>
      { state := s', trace := [Effect.connect],
        result := Except.error (CoordError.raw (GatewayError.otherError m)) }

/-- The `try` block of `_async_update_data` (coordinator.py 58-76):
`poll_status()` then the pure read `get_climate_devices()`; an
`IT600AuthenticationError` becomes `ConfigEntryAuthFailed`, an
`IT600ConnectionError` becomes `UpdateFailed("Connection error: ...")`,
and any other exception becomes
`UpdateFailed("Error communicating with gateway: ...")`. -/
def updateTryBody (b : GatewayBehavior) (s : CoordState) : StepResult Snapshot :=
  match b.pollStatusResult with
  | Except.ok _ =>
      { state := s, trace := [Effect.pollStatus, Effect.getClimateDevices],
        result := Except.ok b.climateDevices }
  | Except.error GatewayError.authError =>
      { state := s, trace := [Effect.pollStatus],
        result := Except.error (CoordError.configEntryAuthFailed "Authentication failed") }
  | Except.error (GatewayError.connError m) =>
      { state := s, trace := [Effect.pollStatus],
        result := Except.error (CoordError.updateFailed ("Connection error: " ++ m)) }
  | Except.error (GatewayError.otherError m) =>
      { state := s, trace := [Effect.pollStatus],
        result := Except.error
          (CoordError.updateFailed ("Error communicating with gateway: " ++ m)) }

/-- `SalusDataUpdateCoordinator._async_update_data` (coordinator.py
53-76): when `self._gateway is None` it first runs `_async_setup()`
outside the `try` block, so setup exceptions propagate unchanged. -/
def asyncUpdateData (b : GatewayBehavior) (s : CoordState) : StepResult Snapshot :=
  match s.gateway with
  | none =>
      let r := asyncSetup b s
      match r.result with
      | Except.ok _ =>
          let r2 := updateTryBody b r.state
          { state := r2.state, trace := r.trace ++ r2.trace, result := r2.result }
      | Except.error e =>
          { state := r.state, trace := r.trace, result := Except.error e }
  | some _ => updateTryBody b s

/-- Modelled from the spec: the host framework's `DataUpdateCoordinator`
refresh step, which is not part of this repository. It stores the value
returned by `_async_update_data` as `coordinator.data` on success; when
`_async_update_data` raises, the previously stored data is left unchanged
("the last-known-good snapshot is retained and served to consumers (never
cleared on transient failure)"). -/
def refreshStep (b : GatewayBehavior) (s : CoordState) : CoordState :=
  let r := asyncUpdateData b s
  match r.result with
  | Except.ok snap => { r.state with data := some snap }
  | Except.error _ => r.state

/-- `SalusDataUpdateCoordinator.async_close` (coordinator.py 78-83):
closes and drops the gateway object if there is one, otherwise does
nothing. -/
def asyncClose (s : CoordState) : CoordState × List Effect :=
  match s.gateway with
  | none => (s, [])
  | some _ => ({ s with gateway := none }, [Effect.closeGateway])

/-- `SalusDataUpdateCoordinator.async_set_temperature` (coordinator.py
85-95): raises `UpdateFailed("Gateway not connected")` when no gateway is
held; otherwise forwards the command to the gateway and, if it succeeded,
requests an immediate refresh; any exception from the gateway call becomes
`UpdateFailed("Failed to set temperature: ...")`. -/
def asyncSetTemperature (b : GatewayBehavior) (s : CoordState)
    (deviceId : String) (temperature : Rat) : StepResult Unit :=
  match s.gateway with
  | none =>
      { state := s, trace := [],
        result := Except.error (CoordError.updateFailed "Gateway not connected") }
  | some _ =>
      match b.setTemperatureResult with
      | Except.ok _ =>
          { state := s,
            trace := [Effect.setTemperatureCall deviceId temperature, Effect.requestRefresh],
            result := Except.ok () }
      | Except.error e =>
          { state := s, trace := [Effect.setTemperatureCall deviceId temperature],
            result := Except.error
              (CoordError.updateFailed ("Failed to set temperature: " ++ e.message)) }

/-- `SalusDataUpdateCoordinator.async_set_hvac_mode` (coordinator.py
97-106), same shape as `async_set_temperature`. -/
def coordSetHvacMode (b : GatewayBehavior) (s : CoordState)
    (deviceId : String) (hvac_mode : String) : StepResult Unit :=
  match s.gateway with
  | none =>
      { state := s, trace := [],
        result := Except.error (CoordError.updateFailed "Gateway not connected") }
  | some _ =>
      match b.setModeResult with
      | Except.ok _ =>
          { state := s,
            trace := [Effect.setModeCall deviceId hvac_mode, Effect.requestRefresh],
            result := Except.ok () }
      | Except.error e =>
          { state := s, trace := [Effect.setModeCall deviceId hvac_mode],
            result := Except.error
              (CoordError.updateFailed ("Failed to set HVAC mode: " ++ e.message)) }

/-- `SalusDataUpdateCoordinator.async_set_preset_mode` (coordinator.py
108-117). -/
def asyncSetPresetMode (b : GatewayBehavior) (s : CoordState)
    (deviceId : String) (preset_mode : String) : StepResult Unit :=
  match s.gateway with
  | none =>
      { state := s, trace := [],
        result := Except.error (CoordError.updateFailed "Gateway not connected") }
  | some _ =>
      match b.setPresetResult with
      | Except.ok _ =>
          { state := s,
            trace := [Effect.setPresetCall deviceId preset_mode, Effect.requestRefresh],
            result := Except.ok () }
      | Except.error e =>
          { state := s, trace := [Effect.setPresetCall deviceId preset_mode],
            result := Except.error
              (CoordError.updateFailed ("Failed to set preset mode: " ++ e.message)) }

/-! ## climate.py: entity read properties and setters -/

/-- `SalusClimateEntity._device_data` (climate.py 81-84), given the
`"climate"` table of the snapshot currently stored by the coordinator:
`coordinator.data.get("climate", dict()).get(device_id)`. -/
def deviceData (snap : Snapshot) (deviceId : String) : Option DeviceState :=
  snap.lookup deviceId

/-- `SalusClimateEntity.hvac_mode` (climate.py 149-155): looks the raw
mode up in `HVAC_MODE_MAP` with default `HVACMode.HEAT`; also `HEAT` when
the device is missing or has no `hvac_mode` attribute. -/
def entityHvacMode (snap : Snapshot) (deviceId : String) : HVACMode :=
  match deviceData snap deviceId with
  | some d =>
      match d.hvac_mode with
      | some raw => (HVAC_MODE_MAP raw).getD HVACMode.heat
      | none => HVACMode.heat
  | none => HVACMode.heat

/-- `SalusClimateEntity.hvac_action` (climate.py 162-168): looks the raw
action up in `HVAC_ACTION_MAP` with default `HVACAction.IDLE`; `none`
(Python `None`) when the device is missing or has no `hvac_action`
attribute. -/
def entityHvacAction (snap : Snapshot) (deviceId : String) : Option HVACAction :=
  match deviceData snap deviceId with
  | some d =>
      match d.hvac_action with
      | some raw => some ((HVAC_ACTION_MAP raw).getD HVACAction.idle)
      | none => none
  | none => none

instance {ε α : Type} [DecidableEq ε] [DecidableEq α] : DecidableEq (Except ε α) := fun a b =>
  match a, b with
  | Except.ok x, Except.ok y =>
      if h : x = y then Decidable.isTrue (congrArg Except.ok h)
      else Decidable.isFalse (fun he => h (Except.ok.inj he))
  | Except.error x, Except.error y =>
      if h : x = y then Decidable.isTrue (congrArg Except.error h)
      else Decidable.isFalse (fun he => h (Except.error.inj he))
  | Except.ok _, Except.error _ => Decidable.isFalse (fun he => Except.noConfusion he)
  | Except.error _, Except.ok _ => Decidable.isFalse (fun he => Except.noConfusion he)

/-- Result of `SalusClimateEntity.async_set_hvac_mode`: like `StepResult`
plus whether the "Unsupported HVAC mode" warning was logged. -/
structure EntityStepResult where
  state : CoordState
  trace : List Effect
  result : Except CoordError Unit
  warned : Bool
  deriving DecidableEq

/-- `SalusClimateEntity.async_set_hvac_mode` (climate.py 195-203): an
`HVACMode` with no entry in `HVAC_MODE_REVERSE_MAP` is logged as a warning
and the method returns immediately; otherwise the raw mode string is
forwarded to `coordinator.async_set_hvac_mode`. -/
def entitySetHvacMode (b : GatewayBehavior) (s : CoordState)
    (deviceId : String) (hvac_mode : HVACMode) : EntityStepResult :=
  match HVAC_MODE_REVERSE_MAP hvac_mode with
  | none => { state := s, trace := [], result := Except.ok (), warned := true }
  | some mode =>
      let r := coordSetHvacMode b s deviceId mode
      { state := r.state, trace := r.trace, result := r.result, warned := false }

/-! ## Concrete fixtures used by witnesses and counterexamples -/

/-- A thermostat record as in the spec's scenario (§8): `dev1`, current
21.0 °C, target 19.5 °C, raw mode `"heat"`. -/
def sampleDevice : DeviceState :=
  { name := "Living Room", available := true,
    current_temperature := some 21, target_temperature := some (39 / 2),
    hvac_mode := some "heat", hvac_action := some "heating",
    preset_mode := some "Follow Schedule" }

/-- A record whose raw mode and action have no entry in the tables. -/
def coolDevice : DeviceState :=
  { name := "Cooler", available := true,
    current_temperature := some 24, target_temperature := some 22,
    hvac_mode := some "cool", hvac_action := some "cooling",
    preset_mode := none }

def sampleSnapshot : Snapshot := [("dev1", sampleDevice)]

def sampleGateway : GatewayConn := { host := "10.0.0.5", euid := "0011223344556677" }

/-- A coordinator that has connected and served one successful poll. -/
def connectedState : CoordState :=
  { host := "10.0.0.5", euid := "0011223344556677",
    gateway := some sampleGateway, data := some sampleSnapshot }

/-- Oracle in which every gateway call succeeds. -/
def okBehavior : GatewayBehavior :=
  { connectResult := Except.ok (), pollStatusResult := Except.ok (),
    climateDevices := sampleSnapshot,
    setTemperatureResult := Except.ok (), setModeResult := Except.ok (),
    setPresetResult := Except.ok () }

/-- Oracle in which `poll_status()` raises `IT600ConnectionError`. -/
def connFailBehavior : GatewayBehavior :=
  { okBehavior with pollStatusResult := Except.error (GatewayError.connError "timed out") }

/-- Oracle in which `connect()` raises `IT600AuthenticationError`. -/
def authFailBehavior : GatewayBehavior :=
  { okBehavior with connectResult := Except.error GatewayError.authError }

/-! ## Helper lemmas -/

/-- The dict comprehension building `HVAC_MODE_REVERSE_MAP` inverts every
pair of `HVAC_MODE_MAP`. -/
theorem hvac_mode_reverse_map_inverts (raw : String) (m : HVACMode)
    (h : HVAC_MODE_MAP raw = some m) : HVAC_MODE_REVERSE_MAP m = some raw := by
  unfold HVAC_MODE_MAP at h
  split at h <;> simp at h <;> subst h <;> rfl

/-! ## Claims -/

/-- C6: the HVAC mode translation table is bidirectional and consistent:
raw `"heat"` ↦ `HEAT`, `"off"` ↦ `OFF`, `"auto"` ↦ `AUTO`, raw action
`"heating"` ↦ `HEATING`, and for each of the three mapped raw modes the
forward map followed by the reverse map is the identity. -/
theorem hvac_mode_map_roundtrip :
    HVAC_MODE_MAP "heat" = some HVACMode.heat
      ∧ HVAC_MODE_MAP "off" = some HVACMode.off
      ∧ HVAC_MODE_MAP "auto" = some HVACMode.auto
      ∧ HVAC_ACTION_MAP "heating" = some HVACAction.heating
      ∧ (HVAC_MODE_MAP "heat").bind HVAC_MODE_REVERSE_MAP = some "heat"
      ∧ (HVAC_MODE_MAP "off").bind HVAC_MODE_REVERSE_MAP = some "off"
      ∧ (HVAC_MODE_MAP "auto").bind HVAC_MODE_REVERSE_MAP = some "auto" :=
  ⟨rfl, rfl, rfl, rfl, rfl, rfl, rfl⟩

/-- C7: a device whose raw `hvac_mode` has no entry in the table makes the
`hvac_mode` property return `HEAT` (no exception), and an unmapped raw
`hvac_action` makes the `hvac_action` property return `IDLE`. -/
theorem unmapped_mode_falls_back
    (snap : Snapshot) (deviceId : String) (d : DeviceState) (rawm rawa : String)
    (hd : snap.lookup deviceId = some d)
    (hm : d.hvac_mode = some rawm) (hmn : HVAC_MODE_MAP rawm = none)
    (ha : d.hvac_action = some rawa) (han : HVAC_ACTION_MAP rawa = none) :
    entityHvacMode snap deviceId = HVACMode.heat
      ∧ entityHvacAction snap deviceId = some HVACAction.idle := by
  simp [entityHvacMode, entityHvacAction, deviceData, hd, hm, hmn, ha, han]

/-- Witness for C7 at a concrete snapshot holding a device with raw mode
`"cool"` and raw action `"cooling"`, both unmapped. -/
theorem unmapped_mode_falls_back_witness :
    ([("dev2", coolDevice)] : Snapshot).lookup "dev2" = some coolDevice
      ∧ coolDevice.hvac_mode = some "cool"
      ∧ HVAC_MODE_MAP "cool" = none
      ∧ coolDevice.hvac_action = some "cooling"
      ∧ HVAC_ACTION_MAP "cooling" = none
      ∧ entityHvacMode [("dev2", coolDevice)] "dev2" = HVACMode.heat
      ∧ entityHvacAction [("dev2", coolDevice)] "dev2" = some HVACAction.idle :=
  ⟨rfl, rfl, rfl, rfl, rfl,
    (unmapped_mode_falls_back [("dev2", coolDevice)] "dev2" coolDevice "cool" "cooling"
      rfl rfl rfl rfl rfl).1,
    (unmapped_mode_falls_back [("dev2", coolDevice)] "dev2" coolDevice "cool" "cooling"
      rfl rfl rfl rfl rfl).2⟩

/-- C9: `async_close` is idempotent and safe when already closed: after
one call the gateway reference is `none`, and a second call performs no
gateway interaction and returns the state unchanged, so closing twice
equals closing once. -/
theorem async_close_idempotent (s : CoordState) :
    ((asyncClose s).1).gateway = none
      ∧ asyncClose ((asyncClose s).1) = ((asyncClose s).1, ([] : List Effect)) := by
  cases h : s.gateway <;> simp [asyncClose, h]

/-- C10: each of the three command operations, invoked while the
coordinator holds no gateway object, raises
`UpdateFailed("Gateway not connected")` with no gateway call, no refresh
request, and an unchanged state; the freshly initialized coordinator and
any coordinator just closed are in exactly that gateway-less condition. -/
theorem command_without_gateway
    (b : GatewayBehavior) (s : CoordState)
    (deviceId : String) (temperature : Rat) (mode preset : String)
    (hg : s.gateway = none) :
    asyncSetTemperature b s deviceId temperature
        = { state := s, trace := [],
            result := Except.error (CoordError.updateFailed "Gateway not connected") }
      ∧ coordSetHvacMode b s deviceId mode
        = { state := s, trace := [],
            result := Except.error (CoordError.updateFailed "Gateway not connected") }
      ∧ asyncSetPresetMode b s deviceId preset
        = { state := s, trace := [],
            result := Except.error (CoordError.updateFailed "Gateway not connected") }
      ∧ (initState s.host s.euid).gateway = none
      ∧ ((asyncClose s).1).gateway = none := by
  refine ⟨?_, ?_, ?_, rfl, ?_⟩ <;>
    simp [asyncSetTemperature, coordSetHvacMode, asyncSetPresetMode, asyncClose, hg]

/-- Witness for C10 at the freshly initialized coordinator. -/
theorem command_without_gateway_witness :
    (initState "10.0.0.5" "0011223344556677").gateway = none
      ∧ asyncSetTemperature okBehavior (initState "10.0.0.5" "0011223344556677") "dev1" 21
        = { state := initState "10.0.0.5" "0011223344556677", trace := [],
            result := Except.error (CoordError.updateFailed "Gateway not connected") } :=
  ⟨rfl,
    (command_without_gateway okBehavior (initState "10.0.0.5" "0011223344556677")
      "dev1" 21 "heat" "Off" rfl).1⟩

/-- C1: when `poll_status()` raises a connection error during a scheduled
poll of a connected coordinator, `_async_update_data` raises
`UpdateFailed` and returns no snapshot, so the framework refresh step
leaves the whole coordinator state — in particular the previously stored
snapshot in `data` — unchanged. -/
theorem poll_connection_error_keeps_snapshot
    (b : GatewayBehavior) (s : CoordState) (g : GatewayConn) (m : String)
    (hg : s.gateway = some g)
    (hp : b.pollStatusResult = Except.error (GatewayError.connError m)) :
    (asyncUpdateData b s).result
        = Except.error (CoordError.updateFailed ("Connection error: " ++ m))
      ∧ refreshStep b s = s := by
  constructor <;> simp [asyncUpdateData, updateTryBody, refreshStep, hg, hp]

/-- Witness for C1: a connected coordinator holding one device, with a
poll that times out; the stored state (and its snapshot) survives. -/
theorem poll_connection_error_keeps_snapshot_witness :
    connectedState.gateway = some sampleGateway
      ∧ connFailBehavior.pollStatusResult = Except.error (GatewayError.connError "timed out")
      ∧ (asyncUpdateData connFailBehavior connectedState).result
          = Except.error (CoordError.updateFailed ("Connection error: " ++ "timed out"))
      ∧ refreshStep connFailBehavior connectedState = connectedState :=
  ⟨rfl, rfl,
    (poll_connection_error_keeps_snapshot connFailBehavior connectedState sampleGateway
      "timed out" rfl rfl).1,
    (poll_connection_error_keeps_snapshot connFailBehavior connectedState sampleGateway
      "timed out" rfl rfl).2⟩

/-- C3: an authentication error during the first-refresh bootstrap —
whether raised by `connect()` inside `_async_setup` or by the first
`poll_status()` — makes `_async_update_data` raise
`ConfigEntryAuthFailed` (not `UpdateFailed`), and no snapshot is ever
published: `data` is still `none` after the refresh step. -/
theorem bootstrap_auth_failure_no_snapshot
    (b : GatewayBehavior) (s : CoordState)
    (hg : s.gateway = none) (hd : s.data = none)
    (hb : b.connectResult = Except.error GatewayError.authError
        ∨ (b.connectResult = Except.ok ()
            ∧ b.pollStatusResult = Except.error GatewayError.authError)) :
    (∃ msg, (asyncUpdateData b s).result
        = Except.error (CoordError.configEntryAuthFailed msg))
      ∧ (refreshStep b s).data = none := by
  rcases hb with hb | ⟨hc, hp⟩
  · exact ⟨⟨"Authentication failed - check EUID",
      by simp [asyncUpdateData, asyncSetup, hg, hb]⟩,
      by simp [refreshStep, asyncUpdateData, asyncSetup, hg, hb, hd]⟩
  · exact ⟨⟨"Authentication failed",
      by simp [asyncUpdateData, asyncSetup, updateTryBody, hg, hc, hp]⟩,
      by simp [refreshStep, asyncUpdateData, asyncSetup, updateTryBody, hg, hc, hp, hd]⟩

/-- Witness for C3: a freshly initialized coordinator whose `connect()`
is rejected by the gateway. -/
theorem bootstrap_auth_failure_no_snapshot_witness :
    (initState "10.0.0.5" "0011223344556677").gateway = none
      ∧ (initState "10.0.0.5" "0011223344556677").data = none
      ∧ authFailBehavior.connectResult = Except.error GatewayError.authError
      ∧ (∃ msg, (asyncUpdateData authFailBehavior (initState "10.0.0.5" "0011223344556677")).result
          = Except.error (CoordError.configEntryAuthFailed msg))
      ∧ (refreshStep authFailBehavior (initState "10.0.0.5" "0011223344556677")).data = none :=
  ⟨rfl, rfl, rfl,
    (bootstrap_auth_failure_no_snapshot authFailBehavior
      (initState "10.0.0.5" "0011223344556677") rfl rfl (Or.inl rfl)).1,
    (bootstrap_auth_failure_no_snapshot authFailBehavior
      (initState "10.0.0.5" "0011223344556677") rfl rfl (Or.inl rfl)).2⟩

/-- C8: on a connected coordinator, each of the three commands requests
the out-of-band refresh exactly when its gateway call succeeds: a
successful command's trace contains `requestRefresh` (right after the
gateway call), a failing one's does not. -/
theorem command_refresh_policy
    (b : GatewayBehavior) (s : CoordState) (g : GatewayConn)
    (deviceId : String) (temperature : Rat) (mode preset : String)
    (hg : s.gateway = some g) :
    (Effect.requestRefresh ∈ (asyncSetTemperature b s deviceId temperature).trace
        ↔ b.setTemperatureResult = Except.ok ())
      ∧ (Effect.requestRefresh ∈ (coordSetHvacMode b s deviceId mode).trace
        ↔ b.setModeResult = Except.ok ())
      ∧ (Effect.requestRefresh ∈ (asyncSetPresetMode b s deviceId preset).trace
        ↔ b.setPresetResult = Except.ok ()) := by
  refine ⟨?_, ?_, ?_⟩
  · cases ht : b.setTemperatureResult with
    | ok u => cases u; simp [asyncSetTemperature, hg, ht]
    | error e => simp [asyncSetTemperature, hg, ht]
  · cases hm : b.setModeResult with
    | ok u => cases u; simp [coordSetHvacMode, hg, hm]
    | error e => simp [coordSetHvacMode, hg, hm]
  · cases hp : b.setPresetResult with
    | ok u => cases u; simp [asyncSetPresetMode, hg, hp]
    | error e => simp [asyncSetPresetMode, hg, hp]

/-- Witness for C8: on the connected fixture with an all-success oracle,
the set-temperature trace does contain the refresh request. -/
theorem command_refresh_policy_witness :
    connectedState.gateway = some sampleGateway
      ∧ (Effect.requestRefresh
          ∈ (asyncSetTemperature okBehavior connectedState "dev1" 21).trace
        ↔ okBehavior.setTemperatureResult = Except.ok ()) :=
  ⟨rfl,
    (command_refresh_policy okBehavior connectedState sampleGateway
      "dev1" 21 "heat" "Off" rfl).1⟩

/-- C4 counterexample: `async_set_hvac_mode` on the entity, given the
unmapped mode `COOL`, does not fail at all — it returns normally
(`Except.ok`), so it does not raise `UnsupportedValueError`; it does log
the warning and makes no gateway call. -/
theorem set_unmapped_hvac_mode_returns_ok :
    (entitySetHvacMode okBehavior connectedState "dev1" HVACMode.cool).result
        = Except.ok ()
      ∧ (entitySetHvacMode okBehavior connectedState "dev1" HVACMode.cool).warned = true
      ∧ (entitySetHvacMode okBehavior connectedState "dev1" HVACMode.cool).trace = [] :=
  ⟨rfl, rfl, rfl⟩

/-- C4 amended: for every HVAC mode outside the known mapping, the
entity's `async_set_hvac_mode` logs the "Unsupported HVAC mode" warning
and returns silently without raising: no exception, no gateway call, no
refresh request, coordinator state unchanged. -/
theorem set_unmapped_hvac_mode_silent_noop
    (b : GatewayBehavior) (s : CoordState) (deviceId : String) (mode : HVACMode)
    (h : HVAC_MODE_REVERSE_MAP mode = none) :
    entitySetHvacMode b s deviceId mode
      = { state := s, trace := [], result := Except.ok (), warned := true } := by
  simp [entitySetHvacMode, h]

/-- Witness for the amended C4 at the concrete unmapped mode `COOL`. -/
theorem set_unmapped_hvac_mode_silent_noop_witness :
    HVAC_MODE_REVERSE_MAP HVACMode.cool = none
      ∧ entitySetHvacMode okBehavior connectedState "dev1" HVACMode.cool
        = { state := connectedState, trace := [], result := Except.ok (), warned := true } :=
  ⟨rfl, set_unmapped_hvac_mode_silent_noop okBehavior connectedState "dev1" HVACMode.cool rfl⟩

/-- C5 counterexample: `async_set_temperature` for the id `"ghost"`, which
is absent from the stored snapshot, is not rejected locally: the gateway
call is made (the trace starts with it) and the call returns normally —
no `DeviceNotFoundError` is raised. -/
theorem set_temperature_unknown_id_forwards :
    sampleSnapshot.lookup "ghost" = none
      ∧ (asyncSetTemperature okBehavior connectedState "ghost" 21).trace
          = [Effect.setTemperatureCall "ghost" 21, Effect.requestRefresh]
      ∧ (asyncSetTemperature okBehavior connectedState "ghost" 21).result = Except.ok () :=
  ⟨rfl, rfl, rfl⟩

/-- C5 amended: the coordinator performs no snapshot membership check in
`async_set_temperature`: with a connected gateway the command is forwarded
to the gateway unconditionally, whatever the device id (the first external
call is always the gateway set-temperature call), and the operation never
raises `DeviceNotFoundError` — a gateway failure surfaces as
`UpdateFailed` instead. -/
theorem set_temperature_no_local_id_check
    (b : GatewayBehavior) (s : CoordState) (g : GatewayConn)
    (deviceId : String) (temperature : Rat)
    (hg : s.gateway = some g) :
    (asyncSetTemperature b s deviceId temperature).trace.head?
        = some (Effect.setTemperatureCall deviceId temperature)
      ∧ raisesDeviceNotFound (asyncSetTemperature b s deviceId temperature).result
        = false := by
  cases ht : b.setTemperatureResult with
  | ok u => cases u; simp [asyncSetTemperature, raisesDeviceNotFound, hg, ht]
  | error e => simp [asyncSetTemperature, raisesDeviceNotFound, hg, ht]

/-- Witness for the amended C5 at the unknown id `"ghost"`. -/
theorem set_temperature_no_local_id_check_witness :
    connectedState.gateway = some sampleGateway
      ∧ (asyncSetTemperature okBehavior connectedState "ghost" 21).trace.head?
          = some (Effect.setTemperatureCall "ghost" 21)
      ∧ raisesDeviceNotFound (asyncSetTemperature okBehavior connectedState "ghost" 21).result
          = false :=
  ⟨rfl,
    (set_temperature_no_local_id_check okBehavior connectedState sampleGateway
      "ghost" 21 rfl).1,
    (set_temperature_no_local_id_check okBehavior connectedState sampleGateway
      "ghost" 21 rfl).2⟩

/-- C2 counterexample: the string of sixteen hex digits followed by one
newline — 17 characters, hence not "exactly 16 characters each in
[0-9a-fA-F]" — is nevertheless accepted by `validate_euid`, because
Python's `$` anchor also matches just before a trailing newline. -/
theorem validate_euid_accepts_trailing_newline :
    validate_euid "0123456789abcdef\n" = true
      ∧ ("0123456789abcdef\n").data.length = 17 :=
  ⟨rfl, rfl⟩

/-- C2 amended: `validate_euid` returns `true` for exactly the strings of
sixteen `[0-9a-fA-F]` characters and those same strings with a single
trailing newline appended, and `false` for every other string. -/
theorem validate_euid_characterization (s : String) :
    validate_euid s = true
      ↔ (s.data.length = 16 ∧ ∀ c ∈ s.data, isHexDigit c = true)
        ∨ (∃ t : String, t.data.length = 16 ∧ (∀ c ∈ t.data, isHexDigit c = true)
            ∧ s = t.push '\n') := by
  unfold validate_euid
  simp only [Bool.or_eq_true, Bool.and_eq_true, beq_iff_eq, List.all_eq_true]
  constructor
  · rintro (⟨h16, hall⟩ | ⟨⟨h17, hhex⟩, hlast⟩)
    · exact Or.inl ⟨h16, hall⟩
    · refine Or.inr ⟨String.mk (s.data.take 16), ?_, ?_, ?_⟩
      · simp [List.length_take, h17]
      · exact hhex
      · rcases List.eq_nil_or_concat s.data with hnil | ⟨L, b, hLb⟩
        · rw [hnil] at h17; simp at h17
        · have hb : b = '\n' := by
            have h2 := hlast
            rw [hLb, List.concat_eq_append, List.getLast?_concat] at h2
            exact Option.some.inj h2
          have hlen : L.length = 16 := by
            have h3 := h17
            rw [hLb, List.length_concat] at h3
            omega
          have hL : s.data.take 16 = L := by
            rw [hLb, List.concat_eq_append, ← hlen, List.take_left]
          have hdata : s.data = s.data.take 16 ++ ['\n'] := by
            rw [hL, hLb, List.concat_eq_append, hb]
          calc s = String.mk s.data := rfl
            _ = String.mk (s.data.take 16 ++ ['\n']) := congrArg String.mk hdata
            _ = (String.mk (s.data.take 16)).push '\n' := rfl
  · rintro (⟨h16, hall⟩ | ⟨t, ht16, hthex, rfl⟩)
    · exact Or.inl ⟨h16, hall⟩
    · have hp : (t.push '\n').data = t.data ++ ['\n'] := rfl
      refine Or.inr ⟨⟨?_, ?_⟩, ?_⟩
      · rw [hp, List.length_append, ht16]
        rfl
      · rw [hp, ← ht16, List.take_left]
        exact hthex
      · rw [hp, List.getLast?_concat]

end Salus
